import Mathlib

/-!
Verification development for the quipper perf.data reader/parser
(perf_data_converter). The definitions below are shallow embeddings of the
functions in src/quipper/perf_reader.cc, src/quipper/perf_serializer.cc and
src/quipper/kernel/perf_internals.h; where a function of the repository is
not part of the staged sources (the parser's mapping machinery in
perf_parser.cc and the build-id probing), the definition is modelled from
the specification's words and validated against the repository's tests, and
its doc comment says so.

Machine integers are modelled as Nat; the perf wire format only ever
compares and adds sizes and addresses that fit in 64 bits, and every
concrete scenario below stays far below 2^64, so no wrap-around is
reachable in the statements proved.
-/

namespace Quipper

/-! ### Kernel ABI constants (values fixed by the Linux perf ABI,
declared in kernel/perf_event.h, which the sources include). -/

def PERF_SAMPLE_IP : Nat := 1
def PERF_SAMPLE_TID : Nat := 2
def PERF_SAMPLE_TIME : Nat := 4
def PERF_SAMPLE_ADDR : Nat := 8
def PERF_SAMPLE_ID : Nat := 64
def PERF_SAMPLE_CPU : Nat := 128
def PERF_SAMPLE_STREAM_ID : Nat := 512
def PERF_SAMPLE_IDENTIFIER : Nat := 65536

def PERF_RECORD_MMAP : Nat := 1
def PERF_RECORD_LOST : Nat := 2
def PERF_RECORD_COMM : Nat := 3
def PERF_RECORD_EXIT : Nat := 4
def PERF_RECORD_THROTTLE : Nat := 5
def PERF_RECORD_UNTHROTTLE : Nat := 6
def PERF_RECORD_FORK : Nat := 7
def PERF_RECORD_SAMPLE : Nat := 9
def PERF_RECORD_MMAP2 : Nat := 10
def PERF_RECORD_AUX : Nat := 11
def PERF_RECORD_ITRACE_START : Nat := 12
def PERF_RECORD_LOST_SAMPLES : Nat := 13
def PERF_RECORD_SWITCH : Nat := 14
def PERF_RECORD_SWITCH_CPU_WIDE : Nat := 15
def PERF_RECORD_NAMESPACES : Nat := 16
def PERF_RECORD_CGROUP : Nat := 19

def PERF_RECORD_FINISHED_ROUND : Nat := 68
def PERF_RECORD_AUXTRACE_INFO : Nat := 70
def PERF_RECORD_AUXTRACE : Nat := 71
def PERF_RECORD_AUXTRACE_ERROR : Nat := 72
def PERF_RECORD_THREAD_MAP : Nat := 73
def PERF_RECORD_STAT_CONFIG : Nat := 75
def PERF_RECORD_STAT : Nat := 76
def PERF_RECORD_STAT_ROUND : Nat := 77
def PERF_RECORD_TIME_CONV : Nat := 79

def PERF_RECORD_MISC_PROC_MAP_PARSE_TIMEOUT : Nat := 4096

/-- Bitmask test, the Lean rendering of the C expression
(sample_type and mask) being nonzero. -/
def hasBit (x mask : Nat) : Bool := x &&& mask != 0

/-! ### PerfSerializer::UpdateEventIdPositions (perf_serializer.cc:1481).

The function derives, from one attribute's sample_type bitmask, the position
of the event ID inside a SAMPLE record (counted forward) and inside other
kernel records carrying a sample-info trailer (counted backward from the
end). The source starts the SAMPLE position at 0 and increments it once for
each of IP, TID, TIME, ADDR present, and starts the other-record position at
1 and increments it once for each of CPU, STREAM_ID present. The result
None renders the source's EventIdPosition::NotPresent. -/
def updateEventIdPositions (sample_type : Nat) : Option Nat × Option Nat :=
  if hasBit sample_type PERF_SAMPLE_IDENTIFIER then
    (some 0, some 1)
  else if hasBit sample_type PERF_SAMPLE_ID then
    let s0 := 0
    let s1 := if hasBit sample_type PERF_SAMPLE_IP then s0 + 1 else s0
    let s2 := if hasBit sample_type PERF_SAMPLE_TID then s1 + 1 else s1
    let s3 := if hasBit sample_type PERF_SAMPLE_TIME then s2 + 1 else s2
    let s4 := if hasBit sample_type PERF_SAMPLE_ADDR then s3 + 1 else s3
    let o0 := 1
    let o1 := if hasBit sample_type PERF_SAMPLE_CPU then o0 + 1 else o0
    let o2 := if hasBit sample_type PERF_SAMPLE_STREAM_ID then o1 + 1 else o1
    (some s4, some o2)
  else
    (none, none)

/-- The ID-position rules exactly as the specification states them: with
SAMPLE_IDENTIFIER set both positions are fixed; else with SAMPLE_ID set the
SAMPLE-record position is one plus the count of IP, TID, TIME, ADDR present
and the other-record position is one plus the count of CPU, STREAM_ID
present; else neither position exists. Stated for comparison with
updateEventIdPositions, the embedding of the source. -/
def specIdPositions (sample_type : Nat) : Option Nat × Option Nat :=
  if hasBit sample_type PERF_SAMPLE_IDENTIFIER then
    (some 0, some 1)
  else if hasBit sample_type PERF_SAMPLE_ID then
    (some (1 + ((if hasBit sample_type PERF_SAMPLE_IP then 1 else 0)
              + (if hasBit sample_type PERF_SAMPLE_TID then 1 else 0)
              + (if hasBit sample_type PERF_SAMPLE_TIME then 1 else 0)
              + (if hasBit sample_type PERF_SAMPLE_ADDR then 1 else 0))),
     some (1 + ((if hasBit sample_type PERF_SAMPLE_CPU then 1 else 0)
              + (if hasBit sample_type PERF_SAMPLE_STREAM_ID then 1 else 0))))
  else
    (none, none)

/-- The ID-position rules with the SAMPLE-record position amended to start
at zero: the SAMPLE-record position equals the plain count of IP, TID, TIME,
ADDR present (not one plus that count); the other-record position keeps the
one-plus form. -/
def specIdPositionsAmended (sample_type : Nat) : Option Nat × Option Nat :=
  if hasBit sample_type PERF_SAMPLE_IDENTIFIER then
    (some 0, some 1)
  else if hasBit sample_type PERF_SAMPLE_ID then
    (some ((if hasBit sample_type PERF_SAMPLE_IP then 1 else 0)
         + (if hasBit sample_type PERF_SAMPLE_TID then 1 else 0)
         + (if hasBit sample_type PERF_SAMPLE_TIME then 1 else 0)
         + (if hasBit sample_type PERF_SAMPLE_ADDR then 1 else 0)),
     some (1 + ((if hasBit sample_type PERF_SAMPLE_CPU then 1 else 0)
              + (if hasBit sample_type PERF_SAMPLE_STREAM_ID then 1 else 0))))
  else
    (none, none)

/-! ### PerfReader::MaybeSortEventsByTime (perf_reader.cc:758).

The source walks the attribute list and returns without sorting as soon as
one attribute's sample_type lacks PERF_SAMPLE_TIME; otherwise it runs
std::stable_sort over the event list with CompareEventTimes
(perf_reader.cc:206), the strict comparison of the events' timestamps. A
stable sort under the strict order (t1 < t2) arranges the list so that the
reflexive order (t1 <= t2) holds pairwise while elements with equal
timestamps keep their relative order; List.mergeSort with the reflexive
comparison is exactly that sort. -/

/-- One event as the sort sees it: its timestamp, plus an opaque payload
standing for everything else in the record (it lets two events with equal
timestamps be distinguished, as distinct records in the event list are). -/
structure PerfEventModel where
  timestamp : Nat
  payload : Nat
deriving DecidableEq, Repr

/-- The reflexive comparison the stable sort realizes: event e1 may precede
e2 whenever the strict comparison does not order e2 before e1. -/
def eventTimeLE (e1 e2 : PerfEventModel) : Bool := e1.timestamp ≤ e2.timestamp

def maybeSortEventsByTime (attrs : List Nat) (events : List PerfEventModel) :
    List PerfEventModel :=
  if attrs.all (fun sample_type => hasBit sample_type PERF_SAMPLE_TIME) then
    events.mergeSort eventTimeLE
  else
    events

theorem eventTimeLE_trans (a b c : PerfEventModel) :
    eventTimeLE a b → eventTimeLE b c → eventTimeLE a c := by
  simp only [eventTimeLE, decide_eq_true_eq]
  omega

theorem eventTimeLE_total (a b : PerfEventModel) :
    eventTimeLE a b || eventTimeLE b a := by
  simp only [eventTimeLE, Bool.or_eq_true, decide_eq_true_eq]
  omega

/-- Stability of the sort, in filter form: the events carrying any one
timestamp appear in the sorted list exactly as they appeared on the wire. -/
theorem mergeSort_filter_timestamp (events : List PerfEventModel) (t : Nat) :
    (events.mergeSort eventTimeLE).filter (fun e => e.timestamp == t)
      = events.filter (fun e => e.timestamp == t) := by
  have hperm : List.Perm (events.mergeSort eventTimeLE) events :=
    List.mergeSort_perm events eventTimeLE
  have hpf : List.Perm
      ((events.mergeSort eventTimeLE).filter (fun e => e.timestamp == t))
      (events.filter (fun e => e.timestamp == t)) :=
    hperm.filter (fun e => e.timestamp == t)
  have hpw : (events.filter (fun e => e.timestamp == t)).Pairwise
      (fun a b => eventTimeLE a b) := by
    apply List.pairwise_of_forall_mem_list
    intro a ha b hb
    have ha' := List.of_mem_filter ha
    have hb' := List.of_mem_filter hb
    simp only [beq_iff_eq] at ha' hb'
    simp only [eventTimeLE, ha', hb', decide_eq_true_eq]
    omega
  have hsub : List.Sublist (events.filter (fun e => e.timestamp == t))
      (events.mergeSort eventTimeLE) :=
    List.sublist_mergeSort eventTimeLE_trans eventTimeLE_total hpw
      (List.filter_sublist events)
  have hsub2 : List.Sublist (events.filter (fun e => e.timestamp == t))
      ((events.mergeSort eventTimeLE).filter (fun e => e.timestamp == t)) := by
    have h2 := hsub.filter (fun e => e.timestamp == t)
    simpa [List.filter_filter] using h2
  exact (hsub2.eq_of_length hpf.length_eq.symm).symm

/-! ### PerfReader::ReadNonHeaderEventDataWithoutHeader (perf_reader.cc:1065).

The function validates one event record of the data section against the
record sizes the event codec computes. The codec size functions
(GetEventDataFixedPayloadSize, GetEventDataVariablePayloadSize) and
SampleInfoReader::IsSupportedEventType are declared elsewhere in the
repository and are not among the staged sources, so they appear here as
parameters of the model; the control flow around them is embedded from the
source line by line. External effects that can fail (seeking past a skipped
record, reading the payload bytes, the two cross-endian byte-swap passes)
are likewise parameters recording whether the effect succeeds, and
everything after the size validation (the zero-length kernel MMAP skip, the
MMAP2 build-id registration, serialization, the AUXTRACE payload) is folded
into one parameter holding the outcome of that remainder, since none of it
touches the size checks. -/

/-- The perf_event_header wire triple (perf_internals.h includes it from the
kernel header): record type, misc flags, total record size. -/
structure EventHeaderRec where
  type : Nat
  misc : Nat
  size : Nat
deriving DecidableEq, Repr

/-- PerfSerializer::IsSupportedKernelEventType (perf_serializer.cc:36). -/
def isSupportedKernelEventType (t : Nat) : Bool :=
  t == PERF_RECORD_MMAP || t == PERF_RECORD_LOST || t == PERF_RECORD_COMM ||
  t == PERF_RECORD_EXIT || t == PERF_RECORD_THROTTLE ||
  t == PERF_RECORD_UNTHROTTLE || t == PERF_RECORD_FORK ||
  t == PERF_RECORD_SAMPLE || t == PERF_RECORD_MMAP2 || t == PERF_RECORD_AUX ||
  t == PERF_RECORD_ITRACE_START || t == PERF_RECORD_LOST_SAMPLES ||
  t == PERF_RECORD_SWITCH || t == PERF_RECORD_SWITCH_CPU_WIDE ||
  t == PERF_RECORD_NAMESPACES || t == PERF_RECORD_CGROUP

/-- PerfSerializer::IsSupportedUserEventType (perf_serializer.cc:59). -/
def isSupportedUserEventType (t : Nat) : Bool :=
  t == PERF_RECORD_FINISHED_ROUND || t == PERF_RECORD_AUXTRACE_INFO ||
  t == PERF_RECORD_AUXTRACE || t == PERF_RECORD_AUXTRACE_ERROR ||
  t == PERF_RECORD_THREAD_MAP || t == PERF_RECORD_STAT_CONFIG ||
  t == PERF_RECORD_STAT || t == PERF_RECORD_STAT_ROUND ||
  t == PERF_RECORD_TIME_CONV

/-- IsProcMapTimeoutMmap (perf_reader.cc:212): an MMAP or MMAP2 record whose
misc flags carry the proc-map-parse-timeout bit. -/
def isProcMapTimeoutMmap (h : EventHeaderRec) : Bool :=
  (h.type == PERF_RECORD_MMAP || h.type == PERF_RECORD_MMAP2) &&
    hasBit h.misc PERF_RECORD_MISC_PROC_MAP_PARSE_TIMEOUT

/-- PerfSerializer::ContainsSampleInfo (perf_serializer.cc:87): SAMPLE
records always embed sample info; other types do only when the sample-info
reader supports the type, at least one reader is registered, and the first
attribute sets sample_id_all. The support test is a parameter (its source is
not staged). -/
def containsSampleInfo (sampleInfoSupported : Nat → Bool)
    (readerMapNonempty : Bool) (firstAttrSampleIdAll : Bool) (t : Nat) : Bool :=
  if t == PERF_RECORD_SAMPLE then true
  else if !sampleInfoSupported t then false
  else readerMapNonempty && firstAttrSampleIdAll

/-- Outcome of reading one record: the source returns false (failed), or
returns true after seeking past the record without producing an event
(skipped), or returns true with the event serialized (produced). -/
inductive ReadEventResult
  | failed
  | skipped
  | produced
deriving DecidableEq, Repr

/-- The context of one ReadNonHeaderEventDataWithoutHeader call: the codec
size functions, the sample-info configuration, and the success of each
external effect (see the section comment above). -/
structure EventReadCtx where
  fixedPayloadSize : Nat → Option Nat
  variablePayloadSize : EventHeaderRec → Nat → Option Nat
  sampleInfoSupported : Nat → Bool
  readerAvailable : Bool
  firstAttrSampleIdAll : Bool
  seekOk : Bool
  restReadOk : Bool
  swapFixedOk : Bool
  swapVariableOk : Bool
  tailResult : ReadEventResult

/-- The control flow of perf_reader.cc:1065-1144, in source order:
unsupported types are skipped; a missing sample-info reader fails; a missing
fixed payload size fails; a record smaller than the fixed payload fails; a
proc-map-timeout MMAP is skipped; payload read and fixed-field byte-swap
failures fail; a missing variable payload size fails; the variable-field
byte-swap failure fails; a record of a type without a sample-info trailer
whose size is not exactly fixed plus variable fails; the remainder of the
function decides the rest. -/
def readNonHeaderEventDataWithoutHeader (ctx : EventReadCtx)
    (h : EventHeaderRec) : ReadEventResult :=
  if !(isSupportedKernelEventType h.type || isSupportedUserEventType h.type) then
    if ctx.seekOk then .skipped else .failed
  else if !ctx.readerAvailable then .failed
  else
    match ctx.fixedPayloadSize h.type with
    | none => .failed
    | some fixed =>
      if h.size < fixed then .failed
      else if isProcMapTimeoutMmap h then
        if ctx.seekOk then .skipped else .failed
      else if !ctx.restReadOk then .failed
      else if !ctx.swapFixedOk then .failed
      else
        match ctx.variablePayloadSize h (h.size - fixed) with
        | none => .failed
        | some varSize =>
          if !ctx.swapVariableOk then .failed
          else if !containsSampleInfo ctx.sampleInfoSupported
                    ctx.readerAvailable ctx.firstAttrSampleIdAll h.type
                  && h.size != fixed + varSize then .failed
          else ctx.tailResult

/-! ### The container dispatch and the attribute table
(PerfReader::ReadFromData, perf_reader.cc:479; PerfReader::ReadHeader,
perf_reader.cc:775; PerfReader::ReadAttrsSection, perf_reader.cc:869).

The input is a byte buffer read through a cursor, as DataReader presents it:
an in-memory buffer, a position, and a cross-endian flag that makes every
64-bit read byte-swapped. ReadFileData and ReadPipedData, and the per-entry
ReadAttr, span the rest of the reader and many collaborators; the claims
settled here concern only the dispatch and the guards in front of them, so
those continuations are parameters of the model. -/

/-- The PERFILE2 tag (perf_internals.h:14). -/
def kPerfMagic : Nat := 0x32454c4946524550

structure ByteCursor where
  bytes : List Nat
  pos : Nat
  crossEndian : Bool
deriving DecidableEq, Repr

/-- Byte i of a 64-bit word. -/
def byteAt (n i : Nat) : Nat := n / 256 ^ i % 256

/-- bswap_64: the 64-bit word with its eight bytes reversed. -/
def bswap64 (n : Nat) : Nat :=
  byteAt n 0 * 256 ^ 7 + byteAt n 1 * 256 ^ 6 + byteAt n 2 * 256 ^ 5 +
  byteAt n 3 * 256 ^ 4 + byteAt n 4 * 256 ^ 3 + byteAt n 5 * 256 ^ 2 +
  byteAt n 6 * 256 + byteAt n 7

/-- The value of a little-endian byte sequence. -/
def leValue : List Nat → Nat
  | [] => 0
  | b :: rest => b + 256 * leValue rest

/-- DataReader::ReadUint64: eight bytes at the cursor, interpreted
little-endian and byte-swapped when the reader is cross-endian; fails when
fewer than eight bytes remain. -/
def readUint64 (c : ByteCursor) : Option (Nat × ByteCursor) :=
  if c.pos + 8 ≤ c.bytes.length then
    let v := leValue ((c.bytes.drop c.pos).take 8)
    some (if c.crossEndian then bswap64 v else v, { c with pos := c.pos + 8 })
  else
    none

/-- DataReader::ReadData: n raw bytes at the cursor; fails when fewer
remain. -/
def readDataBytes (n : Nat) (c : ByteCursor) : Option (List Nat × ByteCursor) :=
  if c.pos + n ≤ c.bytes.length then
    some ((c.bytes.drop c.pos).take n, { c with pos := c.pos + n })
  else
    none

structure FileSection where
  offset : Nat
  size : Nat
deriving DecidableEq, Repr

/-- ReadPerfFileSection (perf_reader.cc:180): an (offset, size) pair of
64-bit words, rejected when the offset lies beyond the input or the size
exceeds what remains after the offset. -/
def readPerfFileSection (c : ByteCursor) : Option (FileSection × ByteCursor) :=
  match readUint64 c with
  | none => none
  | some (offset, c1) =>
    match readUint64 c1 with
    | none => none
    | some (size, c2) =>
      if offset > c2.bytes.length then none
      else if size > c2.bytes.length - offset then none
      else some (⟨offset, size⟩, c2)

/-- The non-piped remainder of perf_file_header (perf_internals.h:66):
attribute record stride, the three file sections, and the feature bitmap
read as its 32 raw bytes. The cross-endian bitmap disambiguation
(perf_reader.cc:837) only permutes those bytes and no statement below
depends on the bitmap, so it is not modelled. -/
structure FullHeaderRest where
  attr_size : Nat
  attrs : FileSection
  data : FileSection
  event_types : FileSection
  adds_features : List Nat
deriving DecidableEq, Repr

/-- What ReadHeader leaves behind: the piped prefix (magic and size), and
for non-piped inputs the rest of the full header. -/
structure HeaderState where
  pipedMagic : Nat
  pipedSize : Nat
  full : Option FullHeaderRest
deriving DecidableEq, Repr

/-- PerfReader::ReadHeader (perf_reader.cc:775): reads the magic, accepts it
in either byte order and records cross-endianness, reads the header size,
stops there for a piped header (size 16), and otherwise reads the remaining
full-header fields with the section bound checks. -/
def readHeader (c : ByteCursor) : Option (HeaderState × ByteCursor) :=
  match readUint64 c with
  | none => none
  | some (magic, c1) =>
    if magic != kPerfMagic && magic != bswap64 kPerfMagic then none
    else
      let c1 := { c1 with crossEndian := magic != kPerfMagic }
      match readUint64 c1 with
      | none => none
      | some (size, c2) =>
        if size == 16 then
          some (⟨magic, size, none⟩, c2)
        else
          match readUint64 c2 with
          | none => none
          | some (attr_size, c3) =>
            match readPerfFileSection c3 with
            | none => none
            | some (attrs, c4) =>
              match readPerfFileSection c4 with
              | none => none
              | some (dataSec, c5) =>
                match readPerfFileSection c5 with
                | none => none
                | some (event_types, c6) =>
                  match readDataBytes 32 c6 with
                  | none => none
                  | some (features, c7) =>
                    some (⟨magic, size,
                      some ⟨attr_size, attrs, dataSec, event_types, features⟩⟩,
                      c7)

/-- PerfReader::ReadFromData (perf_reader.cc:479): empty input fails at
once; then the header is read and the size dispatches to the normal-mode or
piped-mode reader (sizeof the full header is 104, of the piped header 16);
any other size fails. The two mode readers are parameters. -/
def readFromData {α : Type} (readFileData readPipedData :
    HeaderState → ByteCursor → Option α) (c : ByteCursor) : Option α :=
  if c.bytes.length == 0 then none
  else
    match readHeader c with
    | none => none
    | some (hs, c1) =>
      if hs.pipedSize == 104 then readFileData hs c1
      else if hs.pipedSize != 16 then none
      else readPipedData hs c1

/-- PerfReader::ReadFromPointer and, through it, ReadFromVector and
ReadFromString (perf_reader.cc:466): a buffer reader over the bytes starting
at position zero, native byte order until the magic says otherwise. -/
def readFromPointer {α : Type} (readFileData readPipedData :
    HeaderState → ByteCursor → Option α) (bytes : List Nat) : Option α :=
  readFromData readFileData readPipedData ⟨bytes, 0, false⟩

/-- DataReader::SeekSet, which repositions the cursor; a position beyond the
buffer fails (the reader cannot read there). Its own source is not staged;
no statement below depends on its boundary behavior. -/
def seekSet (offset : Nat) (c : ByteCursor) : Option ByteCursor :=
  if offset ≤ c.bytes.length then some { c with pos := offset } else none

/-- The loop of ReadAttrsSection: num_attrs calls of ReadAttr, each failing
the whole section on failure. ReadAttr spans ReadEventAttr and the ID table
and is a parameter. -/
def iterateReadAttr (readAttr : ByteCursor → Option ByteCursor) :
    Nat → ByteCursor → Option ByteCursor
  | 0, c => some c
  | n + 1, c =>
    match readAttr c with
    | none => none
    | some c1 => iterateReadAttr readAttr n c1

/-- PerfReader::ReadAttrsSection (perf_reader.cc:869): a zero attr_size
fails before anything else; otherwise the attribute count is the section
size divided by the stride, the cursor seeks to the section, and the
entries are read in sequence. (A section size that is not a multiple of the
stride only logs in the source; it does not fail.) -/
def readAttrsSection (readAttr : ByteCursor → Option ByteCursor)
    (hdr : FullHeaderRest) (c : ByteCursor) : Option ByteCursor :=
  if hdr.attr_size == 0 then none
  else
    let num_attrs := hdr.attrs.size / hdr.attr_size
    match seekSet hdr.attrs.offset c with
    | none => none
    | some c1 => iterateReadAttr readAttr num_attrs c1

/-! ### The mapping table (spec-modelled).

PerfParser and its mapping machinery (perf_parser.cc, the address mapper and
the huge-page deducer) are not among the staged sources; only their tests
are. Every definition in this section is modelled from the specification's
MappingTable and Parser sections and validated below against the literal
expectations of PerfParserTest.MapsSampleEventIp,
PerfParserTest.MmapCoversEntireAddressSpace and
PerfParserTest.HugePagesMappings (perf_parser_test.cc). -/

/-- Modelled from the spec: one memory mapping as the parser keeps it,
(start, length, file_offset, filename). The inode, protection and flag
fields of the full mapping record play no part in the claims settled here
and are omitted. -/
structure PerfMapping where
  start : Nat
  len : Nat
  pgoff : Nat
  filename : String
deriving DecidableEq, Repr

/-- Modelled from the spec: the pieces of an existing mapping that survive
the insertion of a new mapping covering the half-open range from s to e: the
part below s and the part at or above e, each with its file offset advanced
by its distance from the old start. A mapping disjoint from the range
survives whole; one covered by it vanishes. -/
def mappingPiecesOutside (s e : Nat) (m : PerfMapping) : List PerfMapping :=
  (if m.start < s then
    [{ m with len := min m.len (s - m.start) }]
  else []) ++
  (if e < m.start + m.len then
    [{ start := max m.start e,
       len := m.start + m.len - max m.start e,
       pgoff := m.pgoff + (max m.start e - m.start),
       filename := m.filename }]
  else [])

/-- Insertion into the start-ordered list at its place. -/
def insertSorted (m : PerfMapping) : List PerfMapping → List PerfMapping
  | [] => [m]
  | x :: xs =>
    if decide (m.start ≤ x.start) then m :: x :: xs else x :: insertSorted m xs

/-- Modelled from the spec: insert establishes the new mapping, the new one
taking precedence over the overlapped portions of older ones, which are
split or truncated; a zero-length mapping is rejected earlier and changes
nothing. -/
def insertMapping (m : PerfMapping) (t : List PerfMapping) : List PerfMapping :=
  if m.len == 0 then t
  else insertSorted m (t.flatMap (mappingPiecesOutside m.start (m.start + m.len)))

/-- Modelled from the spec: the mapping of this process covering the
address, if any. -/
def lookupMapping (t : List PerfMapping) (addr : Nat) : Option PerfMapping :=
  t.find? (fun m => decide (m.start ≤ addr) && decide (addr < m.start + m.len))

/-- Modelled from the spec: the resolved pair, filename and
file_offset + (addr - start). -/
def dsoAndOffset (m : PerfMapping) (addr : Nat) : String × Nat :=
  (m.filename, m.pgoff + (addr - m.start))

/-- Modelled from the spec: sample resolution looks the address up in the
process's own table and falls back to the kernel table when no per-process
mapping covers it. -/
def resolveSample (userTable kernelTable : List PerfMapping) (addr : Nat) :
    Option (String × Nat) :=
  match lookupMapping userTable addr with
  | some m => some (dsoAndOffset m addr)
  | none => (lookupMapping kernelTable addr).map (fun m => dsoAndOffset m addr)

/-- The anonymous-mapping name the huge-page deduction recognizes. -/
def isAnonFilename (f : String) : Bool := f == "//anon"

/-- Modelled from the spec: the huge-page rewrite of one mapping, given its
neighbors in the start-ordered table. An anonymous mapping sandwiched
between two mappings of one executable, contiguous in addresses and in file
offsets, takes that executable's name and the file offset continuing the
preceding mapping; an anonymous mapping with no preceding mapping that is
address-contiguous with the following executable takes its name and the
file offset that ends where the following one begins. Anything else is left
alone. -/
def deduceOne (prev : Option PerfMapping) (m : PerfMapping)
    (next : Option PerfMapping) : PerfMapping :=
  if !isAnonFilename m.filename then m
  else
    match prev, next with
    | some p, some n =>
      if !isAnonFilename p.filename && p.filename == n.filename &&
          p.start + p.len == m.start && m.start + m.len == n.start &&
          p.pgoff + p.len + m.len == n.pgoff then
        { m with filename := n.filename, pgoff := p.pgoff + p.len }
      else m
    | none, some n =>
      if !isAnonFilename n.filename && m.start + m.len == n.start &&
          decide (m.len ≤ n.pgoff) then
        { m with filename := n.filename, pgoff := n.pgoff - m.len }
      else m
    | _, _ => m

/-- The walk behind deduceHugePages: each mapping is rewritten against its
original neighbors. -/
def deduceGo (prev : Option PerfMapping) : List PerfMapping → List PerfMapping
  | [] => []
  | m :: rest => deduceOne prev m rest.head? :: deduceGo (some m) rest

/-- Modelled from the spec: the huge-page deduction pass over the
start-ordered table. -/
def deduceHugePages (t : List PerfMapping) : List PerfMapping :=
  deduceGo none t

/-- Modelled from the spec: merge consecutive mappings with the same
filename when the second starts where the first ends, both in addresses and
in file offsets. -/
def combineAdjacent : List PerfMapping → List PerfMapping
  | [] => []
  | a :: rest =>
    match combineAdjacent rest with
    | [] => [a]
    | b :: rest2 =>
      if a.filename == b.filename && b.start == a.start + a.len &&
          b.pgoff == a.pgoff + a.len then
        { a with len := a.len + b.len } :: rest2
      else
        a :: b :: rest2

/-- The filename test of CheckKernelHasZeroPgoff (perf_parser_test.cc:207):
the filename contains the text kernel.kallsyms. Spelled over the character
lists so that concrete instances evaluate by decide. -/
def charsBeginWith : List Char → List Char → Bool
  | [], _ => true
  | _ :: _, [] => false
  | p :: ps, c :: cs => p == c && charsBeginWith ps cs

def charsContain (pat : List Char) : List Char → Bool
  | [] => charsBeginWith pat []
  | c :: cs => charsBeginWith pat (c :: cs) || charsContain pat cs

def isKernelKallsymsName (s : String) : Bool :=
  charsContain "kernel.kallsyms".data s.data

/-- The walk behind remapTable: each mapping's new start is the running sum
of the lengths already placed, and a kernel.kallsyms mapping's file offset
is zeroed. -/
def remapGo (acc : Nat) : List PerfMapping → List PerfMapping
  | [] => []
  | m :: rest =>
    { m with
      start := acc,
      pgoff := if isKernelKallsymsName m.filename then 0 else m.pgoff } ::
      remapGo (acc + m.len) rest

/-- Modelled from the spec: remap renumbers the start addresses of one
process's start-ordered table into a dense space beginning at the given
base (zero for ordinary processes, the quasi-kernel base for the kernel),
each mapping placed at the cumulative length of those before it, and the
kernel mapping's file offset is zeroed. -/
def remapTable (base : Nat) (t : List PerfMapping) : List PerfMapping :=
  remapGo base t

/-- The walk behind remapAddr. -/
def remapAddrGo (acc : Nat) : List PerfMapping → Nat → Option Nat
  | [], _ => none
  | m :: rest, addr =>
    if decide (m.start ≤ addr) && decide (addr < m.start + m.len) then
      some (acc + (addr - m.start))
    else
      remapAddrGo (acc + m.len) rest addr

/-- Modelled from the spec: the original-to-remapped address transform that
rewrites sample IPs and ADDRs: an address inside a mapping moves with it. -/
def remapAddr (base : Nat) (t : List PerfMapping) (addr : Nat) : Option Nat :=
  remapAddrGo base t addr

/-! #### The concrete tables of the three mapping scenarios. -/

def c4FooMapping : PerfMapping :=
  ⟨0x1c1000, 0x1000, 0, "/usr/lib/foo.so"⟩

def c4BarMapping : PerfMapping :=
  ⟨0x1c3000, 0x2000, 0x2000, "/usr/lib/bar.so"⟩

/-- The pid 1001 table of PerfParserTest.MapsSampleEventIp after its two
MMAP events. -/
def c4Table : List PerfMapping :=
  insertMapping c4BarMapping (insertMapping c4FooMapping [])

def kernelKallsymsMapping : PerfMapping :=
  ⟨0, 18446744073709551615, 0, "[kernel.kallsyms]_text"⟩

/-- The kernel table of PerfParserTest.MmapCoversEntireAddressSpace: one
mapping by the kernel sentinel pid covering the whole address space. -/
def c5KernelTable : List PerfMapping :=
  insertMapping kernelKallsymsMapping []

/-- The pid 1234 table of the same test: one shared library. -/
def c5UserTable : List PerfMapping :=
  insertMapping ⟨0x7f008e000000, 0x2000000, 0, "/usr/lib/libfoo.so"⟩ []

def chromeFilename : String := "/opt/google/chrome/chrome"

def c6Mapping1 : PerfMapping := ⟨0x40018000, 0x1e8000, 0, chromeFilename⟩

def c6AnonMapping : PerfMapping := ⟨0x40200000, 0x1c00000, 0, "//anon"⟩

def c6Mapping2 : PerfMapping := ⟨0x41e00000, 0x4000000, 0x1de8000, chromeFilename⟩

/-- The three split-Chrome mappings of PerfParserTest.HugePagesMappings in
their table. -/
def c6Table : List PerfMapping :=
  insertMapping c6Mapping2 (insertMapping c6AnonMapping
    (insertMapping c6Mapping1 []))

/-- That table after the huge-page deduction and combination passes, in the
order the spec fixes. -/
def c6Processed : List PerfMapping :=
  combineAdjacent (deduceHugePages c6Table)

/-! ### Filling in missing build-IDs (spec-modelled).

The read_missing_buildids pass lives in perf_parser.cc, which is not among
the staged sources; its test PerfParserTest.OverwriteBuildidIfAlreadyKnown
(perf_parser_test.cc:2696) is. The test records a build-ID for a filename
through a HEADER_BUILD_ID event and puts a file with a different build-ID
note at that path on disk, then asserts that the sample resolving there
reports the on-disk build-ID, not the recorded one; a recorded build-ID
survives only for the filename whose on-disk probe fails (the file does not
exist), and a filename with no recorded build-ID gets the probed one. The
model below follows the specification's probe step amended to that
behavior. -/

/-- Modelled from the spec, amended to the behavior
PerfParserTest.OverwriteBuildidIfAlreadyKnown pins down: with
read_missing_buildids enabled, every filename some sample resolved to (a
hit DSO) is probed on disk; a successful probe's build-ID replaces whatever
the input's build-ID events recorded for that filename, the recorded
build-ID is kept when the probe fails, and filenames never hit keep their
recorded build-ID. -/
def fillInDsoBuildIds (recorded probed : String → Option String)
    (hits : List String) (f : String) : Option String :=
  if f ∈ hits then
    match probed f with
    | some b => some b
    | none => recorded f
  else recorded f

/-- The probe rule exactly as the specification states it: the on-disk file
is probed only when the filename has no recorded build-ID yet, so a
filename whose build-ID is already recorded keeps it unchanged. Stated for
comparison with fillInDsoBuildIds. -/
def fillInDsoBuildIdsClaim (recorded probed : String → Option String)
    (hits : List String) (f : String) : Option String :=
  match recorded f with
  | some b => some b
  | none => if f ∈ hits then probed f else none

def knownFilename : String := "buildid_already_known"

def overwriteFilename : String := "buildid_already_known_overwrite"

def unknownFilename : String := "buildid_not_known"

/-- The build-IDs the test's HEADER_BUILD_ID events record: the 20-byte raw
ids rendered as hex and perfized to 40 characters, as
GetFilenamesToBuildIDs (perf_reader.cc:748) produces them. -/
def c2Recorded (f : String) : Option String :=
  if f == knownFilename then
    some "deadbeef00000000000000000000000000000000"
  else if f == overwriteFilename then
    some "cafebabe00000000000000000000000000000000"
  else none

/-- What probing the disk yields in the test: the first path holds no file,
the other two hold ELF files with four-byte build-id notes. -/
def c2Probed (f : String) : Option String :=
  if f == overwriteFilename then some "f00157ea"
  else if f == unknownFilename then some "c001d00d"
  else none

/-- All three filenames are resolved to by a sample in the test. -/
def c2Hits : List String :=
  [knownFilename, overwriteFilename, unknownFilename]

/-- A codec context under which the C8 scenarios run: a fixed payload of 40
bytes (the layout of mmap_event up to its filename in perf_internals.h:90),
a variable payload of 4 bytes, no sample-info support for non-SAMPLE types
(sample_id_all unset), one registered reader, and all external effects
succeeding. -/
def c8Ctx : EventReadCtx where
  fixedPayloadSize := fun _ => some 40
  variablePayloadSize := fun _ _ => some 4
  sampleInfoSupported := fun _ => false
  readerAvailable := true
  firstAttrSampleIdAll := false
  seekOk := true
  restReadOk := true
  swapFixedOk := true
  swapVariableOk := true
  tailResult := .produced

/-- An MMAP record flagged with the proc-map-parse-timeout misc bit, large
enough for the fixed payload but not of the exact size fixed plus variable. -/
def c8TimeoutHeader : EventHeaderRec where
  type := 1
  misc := 4096
  size := 48

/-- An MMAP record smaller than its fixed payload size. -/
def c8SmallHeader : EventHeaderRec where
  type := 1
  misc := 0
  size := 16

/-- An MMAP record without the timeout flag whose size is not exactly fixed
plus variable. -/
def c8MismatchHeader : EventHeaderRec where
  type := 1
  misc := 0
  size := 48

end Quipper

namespace Quipper

/-- C1 counterexample: for the sample_type that sets only SAMPLE_ID, the
source computes SAMPLE-record ID position 0 while the specification's rule
gives 1, so the two disagree at this concrete input. -/
theorem c1_counterexample :
    updateEventIdPositions PERF_SAMPLE_ID ≠ specIdPositions PERF_SAMPLE_ID ∧
    updateEventIdPositions PERF_SAMPLE_ID = (some 0, some 1) ∧
    specIdPositions PERF_SAMPLE_ID = (some 1, some 1) :=
  ⟨by decide, by decide, by decide⟩

/-- C1 (amended): for every sample_type, the ID positions the source
computes follow the spec rules with the SAMPLE-record position amended to
the plain count of IP, TID, TIME, ADDR present (position 0-based, not one
plus the count); the other-record position is one plus the count of CPU,
STREAM_ID present, and with SAMPLE_IDENTIFIER set the positions are 0 and 1. -/
theorem c1_id_positions_amended (sample_type : Nat) :
    updateEventIdPositions sample_type = specIdPositionsAmended sample_type := by
  unfold updateEventIdPositions specIdPositionsAmended
  rcases h1 : hasBit sample_type PERF_SAMPLE_IDENTIFIER <;>
    rcases h2 : hasBit sample_type PERF_SAMPLE_ID <;>
      simp only [if_true, if_false, Bool.false_eq_true] <;>
        rcases hasBit sample_type PERF_SAMPLE_IP <;>
          rcases hasBit sample_type PERF_SAMPLE_TID <;>
            rcases hasBit sample_type PERF_SAMPLE_TIME <;>
              rcases hasBit sample_type PERF_SAMPLE_ADDR <;>
                rcases hasBit sample_type PERF_SAMPLE_CPU <;>
                  rcases hasBit sample_type PERF_SAMPLE_STREAM_ID <;> rfl

/-- C7: the chronological sort runs only when every attribute's sample_type
carries the TIME bit, leaving the event order untouched (and raising no
error) otherwise; when it runs, the result is ordered by timestamp and
events with equal timestamps keep their wire order. -/
theorem c7_maybe_sort_events_by_time (attrs : List Nat)
    (events : List PerfEventModel) :
    ((¬ ∀ sample_type ∈ attrs, hasBit sample_type PERF_SAMPLE_TIME) →
        maybeSortEventsByTime attrs events = events)
    ∧ ((∀ sample_type ∈ attrs, hasBit sample_type PERF_SAMPLE_TIME) →
        (maybeSortEventsByTime attrs events).Pairwise
          (fun e1 e2 => e1.timestamp ≤ e2.timestamp))
    ∧ (∀ t : Nat,
        (maybeSortEventsByTime attrs events).filter (fun e => e.timestamp == t)
          = events.filter (fun e => e.timestamp == t)) := by
  refine ⟨?_, ?_, ?_⟩
  · intro hmiss
    unfold maybeSortEventsByTime
    rw [if_neg]
    simpa [List.all_eq_true] using hmiss
  · intro hall
    unfold maybeSortEventsByTime
    rw [if_pos]
    · have hs := List.sorted_mergeSort eventTimeLE_trans eventTimeLE_total events
      exact hs.imp (fun {a b} h => by
        simpa [eventTimeLE, decide_eq_true_eq] using h)
    · simpa [List.all_eq_true] using hall
  · intro t
    unfold maybeSortEventsByTime
    rcases h : attrs.all (fun sample_type => hasBit sample_type PERF_SAMPLE_TIME)
    · simp
    · simpa using mergeSort_filter_timestamp events t

/-- C8 counterexample: an MMAP record flagged with the proc-map-parse-timeout
misc bit, of a supported type carrying no sample-info trailer, with a header
size that is at least the fixed payload size but differs from fixed plus
variable, is read successfully (the record is skipped) instead of failing,
so the claimed exact-size failure does not hold for every record. -/
theorem c8_counterexample :
    (isSupportedKernelEventType c8TimeoutHeader.type
      || isSupportedUserEventType c8TimeoutHeader.type) = true
    ∧ c8Ctx.fixedPayloadSize c8TimeoutHeader.type = some 40
    ∧ c8Ctx.variablePayloadSize c8TimeoutHeader (c8TimeoutHeader.size - 40)
        = some 4
    ∧ containsSampleInfo c8Ctx.sampleInfoSupported c8Ctx.readerAvailable
        c8Ctx.firstAttrSampleIdAll c8TimeoutHeader.type = false
    ∧ c8TimeoutHeader.size ≠ 40 + 4
    ∧ readNonHeaderEventDataWithoutHeader c8Ctx c8TimeoutHeader
        ≠ ReadEventResult.failed := by
  decide

/-- C8 (amended): for every record of a supported event type whose fixed
payload size is defined, a header size below the fixed payload size makes
the read fail; and for every such record of a type without a sample-info
trailer that is not an MMAP or MMAP2 bearing the proc-map-parse-timeout misc
bit (such records are skipped without the exact-size check), the read fails
whenever the header size is not exactly the fixed plus the variable payload
size. -/
theorem c8_event_size_checks (ctx : EventReadCtx) (h : EventHeaderRec)
    (fixed : Nat)
    (hsupp : (isSupportedKernelEventType h.type
        || isSupportedUserEventType h.type) = true)
    (hfix : ctx.fixedPayloadSize h.type = some fixed) :
    (h.size < fixed →
        readNonHeaderEventDataWithoutHeader ctx h = ReadEventResult.failed)
    ∧ (∀ varSize : Nat,
        ctx.variablePayloadSize h (h.size - fixed) = some varSize →
        containsSampleInfo ctx.sampleInfoSupported ctx.readerAvailable
          ctx.firstAttrSampleIdAll h.type = false →
        isProcMapTimeoutMmap h = false →
        h.size ≠ fixed + varSize →
        readNonHeaderEventDataWithoutHeader ctx h = ReadEventResult.failed) := by
  constructor
  · intro hlt
    rcases h1 : ctx.readerAvailable <;>
      simp [readNonHeaderEventDataWithoutHeader, hsupp, hfix, h1, hlt]
  · intro varSize hvar hnoinfo hnotimeout hneq
    rcases h1 : ctx.readerAvailable <;> rw [h1] at hnoinfo <;>
      rcases h2 : ctx.restReadOk <;> rcases h3 : ctx.swapFixedOk <;>
        rcases h4 : ctx.swapVariableOk <;>
          simp [readNonHeaderEventDataWithoutHeader, hsupp, hfix, hvar, hnoinfo,
            hnotimeout, hneq, h1, h2, h3, h4]

/-- C8 witness: under the concrete codec context, a record smaller than its
fixed payload fails, and an untimed-out record whose size differs from fixed
plus variable fails. -/
theorem c8_event_size_checks_witness :
    readNonHeaderEventDataWithoutHeader c8Ctx c8SmallHeader
        = ReadEventResult.failed
    ∧ readNonHeaderEventDataWithoutHeader c8Ctx c8MismatchHeader
        = ReadEventResult.failed := by
  constructor
  · exact (c8_event_size_checks c8Ctx c8SmallHeader 40
      (by decide) (by decide)).1 (by decide)
  · exact (c8_event_size_checks c8Ctx c8MismatchHeader 40
      (by decide) (by decide)).2 4 (by decide) (by decide) (by decide)
      (by decide)

/-- C9: a zero-length input fails at once, for every pair of mode readers
and either initial endianness, so the failure happens regardless of what
header parsing and the mode readers would do, and no parsed model is
produced; the pointer entry point (and with it the vector and string entry
points, which delegate to it) fails the same way. -/
theorem c9_empty_input_fails {α : Type} (readFileData readPipedData :
    HeaderState → ByteCursor → Option α) (ce : Bool) :
    readFromData readFileData readPipedData ⟨[], 0, ce⟩ = none
    ∧ readFromPointer readFileData readPipedData [] = none :=
  ⟨rfl, rfl⟩

/-- C10: reading the attribute table fails whenever the header's attr_size
is zero, for every per-entry reader, header and cursor; the attribute count
attrs.size / attr_size is therefore only ever formed with a nonzero
divisor. -/
theorem c10_zero_attr_size_fails (readAttr : ByteCursor → Option ByteCursor)
    (hdr : FullHeaderRest) (c : ByteCursor) (hz : hdr.attr_size = 0) :
    readAttrsSection readAttr hdr c = none := by
  unfold readAttrsSection
  rw [hz]
  rfl

/-- C10 witness: a concrete header with attr_size zero fails. -/
theorem c10_zero_attr_size_fails_witness :
    readAttrsSection (fun c => some c)
      ⟨0, ⟨0, 0⟩, ⟨0, 0⟩, ⟨0, 0⟩, List.replicate 32 0⟩
      ⟨List.replicate 120 0, 0, false⟩ = none :=
  c10_zero_attr_size_fails _ _ _ rfl

/-- Every mapping the remap pass emits whose filename contains
kernel.kallsyms has file offset zero. -/
theorem remapGo_kallsyms_pgoff (t : List PerfMapping) :
    ∀ (base : Nat) (m : PerfMapping), m ∈ remapGo base t →
      isKernelKallsymsName m.filename = true → m.pgoff = 0 := by
  induction t with
  | nil => intro base m hm; simp [remapGo] at hm
  | cons a rest ih =>
    intro base m hm hk
    simp only [remapGo, List.mem_cons] at hm
    rcases hm with h | h
    · subst h
      simp only at hk
      simp [hk]
    · exact ih _ m h hk

/-- C4: given the two MMAP mappings of process 1001, the sample at IP
0x1c3fff resolves to /usr/lib/bar.so at offset 0x2fff; with remapping the
second mapping becomes (start 0x1000, len 0x2000, pgoff 0x2000) and the
sample's IP becomes 0x1fff. -/
theorem c4_maps_sample_event_ip :
    resolveSample c4Table [] 0x1c3fff = some ("/usr/lib/bar.so", 0x2fff)
    ∧ remapTable 0 c4Table =
        [⟨0, 0x1000, 0, "/usr/lib/foo.so"⟩,
         ⟨0x1000, 0x2000, 0x2000, "/usr/lib/bar.so"⟩]
    ∧ remapAddr 0 c4Table 0x1c3fff = some 0x1fff := by
  refine ⟨?_, ?_, ?_⟩
  · decide
  · decide
  · decide

/-- C5: after remapping, every mapping whose filename contains
kernel.kallsyms has file offset zero, for every table and base; and in the
whole-address-space kernel scenario the sample at 0xffffffff8100cafe
resolves to the kernel.kallsyms DSO with the offset equal to its address,
while the remapped kernel mapping indeed carries file offset zero. -/
theorem c5_kernel_remap (t : List PerfMapping) (base : Nat) :
    (∀ m ∈ remapTable base t,
        isKernelKallsymsName m.filename = true → m.pgoff = 0)
    ∧ resolveSample c5UserTable c5KernelTable 0xffffffff8100cafe
        = some ("[kernel.kallsyms]_text", 0xffffffff8100cafe)
    ∧ (∀ m ∈ remapTable 0 c5KernelTable, m.pgoff = 0) := by
  refine ⟨?_, ?_, ?_⟩
  · intro m hm hk
    exact remapGo_kallsyms_pgoff t base m hm hk
  · decide
  · decide

/-- C6: with the huge-page deduction and the combination pass, the three
split-Chrome mappings collapse into the single mapping
(0x40018000, 0x5de8000, 0) of the Chrome executable, and the sample at
0x40020400 resolves to it at offset 0x8400. -/
theorem c6_huge_pages_mappings :
    c6Processed = [⟨0x40018000, 0x5de8000, 0, chromeFilename⟩]
    ∧ resolveSample c6Processed [] 0x40020400
        = some (chromeFilename, 0x8400) := by
  refine ⟨?_, ?_⟩
  · decide
  · decide

/-- C2 counterexample: on the OverwriteBuildidIfAlreadyKnown scenario, the
rule as claimed keeps the recorded build-ID of the filename whose on-disk
file carries a different one, while the behavior the test asserts reports
the on-disk build-ID, so the two disagree at this concrete input. -/
theorem c2_counterexample :
    fillInDsoBuildIdsClaim c2Recorded c2Probed c2Hits overwriteFilename
      = some "cafebabe00000000000000000000000000000000"
    ∧ fillInDsoBuildIds c2Recorded c2Probed c2Hits overwriteFilename
      = some "f00157ea"
    ∧ fillInDsoBuildIdsClaim c2Recorded c2Probed c2Hits overwriteFilename
      ≠ fillInDsoBuildIds c2Recorded c2Probed c2Hits overwriteFilename := by
  refine ⟨?_, ?_, ?_⟩
  · decide
  · decide
  · decide

/-- C2 (amended): the build-id filling probes every hit filename; on the
test's scenario it keeps the recorded build-ID exactly for the filename
whose probe fails, replaces the recorded build-ID with the on-disk one
where the probe succeeds, and fills the probed build-ID where none was
recorded, reproducing all three assertions of
PerfParserTest.OverwriteBuildidIfAlreadyKnown. -/
theorem c2_overwrite_buildid_if_already_known :
    fillInDsoBuildIds c2Recorded c2Probed c2Hits knownFilename
      = some "deadbeef00000000000000000000000000000000"
    ∧ fillInDsoBuildIds c2Recorded c2Probed c2Hits overwriteFilename
      = some "f00157ea"
    ∧ fillInDsoBuildIds c2Recorded c2Probed c2Hits unknownFilename
      = some "c001d00d" := by
  refine ⟨?_, ?_, ?_⟩
  · decide
  · decide
  · decide

end Quipper
